import Mathlib

/-!
Verification development for the Renvuee_Bot repository.

The Python sources are embedded shallowly:
* pure functions become Lean functions on `String`, `List` and `ℚ`
  (Python floats in this code are small decimal constants, modelled exactly
  by rationals);
* regular-expression searches performed through Python's `re` library are
  treated as an external collaborator: functions that call `re.search`
  take a `Search : String → String → Bool` argument giving, for a pattern
  string and a (lowercased) text, whether the pattern matches; functions
  that consume `re.findall` results take the produced match lists as
  arguments;
* the text-completion collaborator (the `llm` / `chain.invoke` call) is an
  argument describing its observable behaviour: raising, returning content
  that fails `json.loads`, or returning a parsed JSON object;
* Python `try`/`except` blocks become `Except` values with the handler
  applied at the end, so exception propagation is explicit.
-/

namespace Renvuee

/-! ### Python-string helpers (character-list based models of `str` ops) -/

/-- Python `str.lower()` restricted to ASCII, which is all the sources use. -/
def pyLower (s : String) : String := String.mk (s.toList.map Char.toLower)

/-- Python `len(s)`: number of code points. -/
def pyLen (s : String) : Nat := s.toList.length

/-- Python slice `s[:n]`. -/
def pySlice (s : String) (n : Nat) : String := String.mk (s.toList.take n)

/-- Whether `pat` is a prefix of `s` (helper for substring search). -/
def charsPrefix : List Char → List Char → Bool
  | [], _ => true
  | _ :: _, [] => false
  | a :: as, b :: bs => a == b && charsPrefix as bs

/-- Whether `pat` occurs contiguously inside `s`: Python's `pat in s`. -/
def charsInfix (pat : List Char) : List Char → Bool
  | [] => charsPrefix pat []
  | c :: rest => charsPrefix pat (c :: rest) || charsInfix pat rest

/-- Python `pat in s` for strings. -/
def pyContains (s pat : String) : Bool := charsInfix pat.toList s.toList

/-- Fuel-driven core of `str.replace`: replaces non-overlapping occurrences
left to right, exactly as Python does for a nonempty pattern. -/
def replaceAllAux (pat rep : List Char) : Nat → List Char → List Char
  | 0, s => s
  | _ + 1, [] => []
  | fuel + 1, c :: rest =>
    if pat ≠ [] ∧ charsPrefix pat (c :: rest) then
      rep ++ replaceAllAux pat rep fuel (rest.drop (pat.length - 1))
    else
      c :: replaceAllAux pat rep fuel rest

/-- Python `s.replace(pat, rep)` (for the nonempty patterns the sources use). -/
def pyReplace (s pat rep : String) : String :=
  String.mk (replaceAllAux pat.toList rep.toList s.toList.length s.toList)

/-- Python `str.join` over a separator, list based. -/
def pyJoin (sep : String) : List String → String
  | [] => ""
  | [x] => x
  | x :: y :: rest => x ++ sep ++ pyJoin sep (y :: rest)

/-- Character class `[a-zA-Z0-9]` of the sources' `re.sub` filters. -/
def pyAlnum (c : Char) : Bool :=
  (('a' ≤ c ∧ c ≤ 'z') ∨ ('A' ≤ c ∧ c ≤ 'Z') ∨ ('0' ≤ c ∧ c ≤ '9') : Bool)

/-- ASCII whitespace class `\s` used in `re.sub(r'[^a-zA-Z0-9\s]', ...)`. -/
def pySpace (c : Char) : Bool :=
  c == ' ' || c == '\t' || c == '\n' || c == '\x0d' || c == '\x0b' || c == '\x0c'

/-! ### Python's `max` over an insertion-ordered dict

`max(d, key=d.get)` on a (nonempty, insertion-ordered) dict walks the keys in
order and replaces the current best only on a strictly greater value, hence
returns the earliest key attaining the maximal value.  `pickMax` is that
iteration, seeded with the first item. -/

def pickMax {α β : Type} [LinearOrder β] (best : α × β) : List (α × β) → α × β
  | [] => best
  | p :: rest => pickMax (if best.2 < p.2 then p else best) rest

/-- The outcome of `re.search(pattern, text)` for a pattern/text pair;
the regex engine is an external library, abstracted as a boolean oracle. -/
def Search := String → String → Bool

/-- Python truthiness of an optional string (`if d.get(k):`):
`None` and the empty string are falsy. -/
def truthy : Option String → Bool
  | none => false
  | some s => s ≠ ""

/-! ## `src/agents/intent_classifier/app.py` -/

namespace IntentApp

/-- Source `class IntentType(str, Enum)`. -/
inductive IntentType
  | knowledge_qa | lead_capture | proposal_request | next_step
  | status_update | smalltalk | unknown
deriving DecidableEq, Repr

/-- Field `.value` of the enum member: its string payload. -/
def IntentType.value : IntentType → String
  | .knowledge_qa => "knowledge_qa"
  | .lead_capture => "lead_capture"
  | .proposal_request => "proposal_request"
  | .next_step => "next_step"
  | .status_update => "status_update"
  | .smalltalk => "smalltalk"
  | .unknown => "unknown"

/-- The seven intent label strings. -/
def intentLabels : List String :=
  ["knowledge_qa", "lead_capture", "proposal_request", "next_step",
   "status_update", "smalltalk", "unknown"]

/-- Source `INTENT_PATTERNS`: the ordered pattern table (dict insertion order). -/
def INTENT_PATTERNS : List (IntentType × List String) :=
  [(.knowledge_qa,
    ["\\b(?:what|how|when|where|why|explain|tell me|describe)\\b",
     "\\bpolicy\\b",
     "\\brefund\\b",
     "\\bhelp\\b",
     "\\bquestion\\b",
     "\\binformation\\b"]),
   (.lead_capture,
    ["\\b(?:wants?|needs?|looking for|interested in)\\b",
     "\\b(?:poc|proof of concept|demo|trial)\\b",
     "\\b(?:budget|price|cost)\\b",
     "\\b(?:from|at)\\s+\\w+(?:\\s+(?:corp|inc|llc|ltd|company))?\\b",
     "\\b\\w+@\\w+\\.\\w+\\b",
     "\\b\\d\x7b3\x7d[-.]?\\d\x7b3\x7d[-.]?\\d\x7b4\x7d\\b"]),
   (.proposal_request,
    ["\\b(?:proposal|quote|estimate|pricing)\\b",
     "\\b(?:draft|create|generate|write)\\b.*\\b(?:proposal|quote)\\b",
     "\\bsend.*(?:proposal|quote)\\b"]),
   (.next_step,
    ["\\b(?:schedule|meeting|call|demo)\\b",
     "\\b(?:tomorrow|today|next|monday|tuesday|wednesday|thursday|friday|saturday|sunday)\\b",
     "\\b(?:\\d\x7b1,2\x7d:\\d\x7b2\x7d|\\d\x7b1,2\x7d\\s*(?:am|pm))\\b",
     "\\b(?:let\\\x27s|set up|arrange)\\b"]),
   (.status_update,
    ["\\b(?:won|lost|closed|signed|cancelled)\\b",
     "\\b(?:update|status|progress)\\b",
     "\\b(?:decided|chose|selected|rejected)\\b",
     "\\b(?:budget cut|no budget|postponed)\\b"]),
   (.smalltalk,
    ["\\b(?:hello|hi|hey|thanks|thank you|bye|goodbye)\\b",
     "\\b(?:how are you|good morning|good afternoon)\\b",
     "\\b(?:nice|great|awesome|cool)\\b"])]

/-- The `intent_scores` dict: per intent (in table order), the number of its
patterns that `re.search` finds in the lowercased text. -/
def intentScores (search : Search) (text_lower : String) : List (IntentType × Nat) :=
  INTENT_PATTERNS.map (fun p => (p.1, p.2.countP (fun pat => search pat text_lower)))

/-- Source `quick_intent_check(text, has_attachments)`. -/
def quick_intent_check (search : Search) (text : String) (has_attachments : Bool) :
    IntentType :=
  if has_attachments then .knowledge_qa
  else
    let text_lower := pyLower text
    let intent_scores := intentScores search text_lower
    if (intent_scores.map Prod.snd).foldl max 0 = 0 then .unknown
    else
      -- `max(intent_scores, key=intent_scores.get)` over the nonempty dict
      match intent_scores with
      | [] => .unknown
      | first :: rest => (pickMax first rest).1

/-- An entity dict `{"type": ..., "value": ..., "confidence": ...}`. -/
structure EntityDict where
  type : String
  value : String
  confidence : ℚ
deriving DecidableEq, Repr

/-- The JSON object parsed from the text-completion response; each field
`Option` because the node reads it with `result.get(..., default)`. -/
structure LLMJson where
  intent : Option String
  confidence : Option ℚ
  entities : Option (List EntityDict)

/-- Observable behaviour of the text-completion call plus `json.loads`:
the call raises (unavailable / timeout / any exception), the returned
content is not valid JSON, or it parses to an object. -/
inductive LLMBehavior
  | raises (msg : String)
  | badJson
  | good (j : LLMJson)

/-- The LangGraph `ClassifierState` fields relevant to classification. -/
structure ClassifierState where
  text : String
  has_attachments : Bool
  intent : Option String
  confidence : Option ℚ
  entities : Option (List EntityDict)
  suggested_agent : Option String
  error : Option String

/-- The state the `/classify` endpoint builds for a request. -/
def initState (text : String) (has_attachments : Bool) : ClassifierState :=
  { text := text, has_attachments := has_attachments, intent := none,
    confidence := none, entities := none, suggested_agent := none, error := none }

/-- The `try:` body of `classify_intent_node`; `throw` is a raised exception
reaching the outer `except Exception` handler.  The inner
`except json.JSONDecodeError` handler appears as the `badJson` branch. -/
def classify_try_body (search : Search) (llm : LLMBehavior) (state : ClassifierState) :
    Except String ClassifierState :=
  -- `if not text: raise ValueError(...)` (empty string is falsy)
  if state.text = "" then
    .error "No text provided for classification"
  else
    let quick_intent := quick_intent_check search state.text state.has_attachments
    match llm with
    | .raises msg => .error msg
    | .badJson =>
      -- except json.JSONDecodeError: fall back to quick classification
      .ok { state with
        intent := some quick_intent.value,
        confidence := some 0.6,
        entities := some [],
        suggested_agent :=
          some (if quick_intent ≠ IntentType.knowledge_qa then "agentB" else "agentA") }
    | .good j =>
      let intent := j.intent.getD "unknown"
      let confidence := j.confidence.getD 0.0
      let entities := j.entities.getD []
      let suggested_agent :=
        if intent ∈ ["knowledge_qa"] then "agentA"
        else if intent ∈ ["lead_capture", "proposal_request", "next_step", "status_update"]
          then "agentB"
        else "agentB"   -- default to dealflow for ambiguous cases
      .ok { state with
        intent := some intent,
        confidence := some confidence,
        entities := some entities,
        suggested_agent := some suggested_agent }

/-- Source `classify_intent_node(state)`: the body with its outer
`except Exception` handler, so the node itself never raises. -/
def classify_intent_node (search : Search) (llm : LLMBehavior) (state : ClassifierState) :
    ClassifierState :=
  match classify_try_body search llm state with
  | .ok r => r
  | .error e =>
    { state with
      intent := some "unknown"
      confidence := some 0.0
      entities := some []
      suggested_agent := some "agentB"
      error := some e }

/-- Source `extract_entities_node(state)`, with the `re.findall` results for the
email, phone and money patterns passed in as collaborator output
(`phones` holds the three captured groups of each match). -/
def extract_entities_node (state_entities : List EntityDict) (emails : List String)
    (phones : List (String × String × String)) (moneys : List String) :
    List EntityDict :=
  -- email loop: skip an address some state entity already carries
  let additional := emails.foldl (fun acc email =>
    if ¬ state_entities.any (fun e => e.type == "email" && e.value == email) then
      acc ++ [⟨"email", email, 0.9⟩]
    else acc) []
  -- phone loop: `phone = f"({g1}) {g2}-{g3}"` is pushed unless some phone
  -- entity's value contains the area code as a substring
  let additional := phones.foldl (fun acc pp =>
    if ¬ state_entities.any (fun e => e.type == "phone" && pyContains e.value pp.1) then
      acc ++ [⟨"phone", "(" ++ pp.1 ++ ") " ++ pp.2.1 ++ "-" ++ pp.2.2, 0.8⟩]
    else acc) additional
  -- money loop: skip whenever any state entity is of type money
  let additional := moneys.foldl (fun acc money =>
    if ¬ state_entities.any (fun e => e.type == "money") then
      acc ++ [⟨"money", money, 0.7⟩]
    else acc) additional
  state_entities ++ additional

end IntentApp

/-! ## `src/perfect_telegram_bot.py` -/

namespace PerfectBot

/-- Source `IntentClassifier.intent_patterns`: the ordered pattern dict. -/
def intent_patterns : List (String × List String) :=
  [("knowledge_qa",
    ["\\b(what|how|when|where|why|tell me|explain|question)\\b",
     "\\b(policy|procedure|document|refund|return)\\b"]),
   ("lead_capture",
    ["\\b(\\w+)\\s+from\\s+(\\w+)\\s+(wants|needs|interested)\\b",
     "\\b(budget|pricing)\\b.*\\$?\\d+",
     "\\b(poc|demo|proposal)\\b"]),
   ("proposal_request",
    ["\\b(draft|generate|create)\\s+(proposal|quote)\\b",
     "\\bproposal\\s+for\\b"]),
   ("next_step",
    ["\\b(schedule|book|set up)\\s+(meeting|call|demo)\\b",
     "\\b(tomorrow|next\\s+\\w+|at\\s+\\d+)\\b"]),
   ("status_update",
    ["\\b(won|lost|closed|cancelled)\\b",
     "\\b(deal|status|update)\\b"]),
   ("smalltalk",
    ["\\b(hello|hi|hey|thanks|thank you)\\b"])]

/-- One entry of a user's context memory; `classify_intent` only reads its
`'intent'` key (`context[-1].get('intent')`). -/
structure CtxEntry where
  intent : Option String
deriving DecidableEq, Repr

/-- The result object `IntentClassification`. -/
structure IntentClassification where
  intent : String
  entities : List (String × String)
  confidence : ℚ
  requestId : String
deriving DecidableEq, Repr

/-- Python `dict` insertion of one key/value: overwrite in place or append. -/
def dictInsert (d : List (String × String)) (kv : String × String) :
    List (String × String) :=
  if d.any (fun p => p.1 == kv.1) then
    d.map (fun p => if p.1 == kv.1 then (p.1, kv.2) else p)
  else d ++ [kv]

/-- Python `dict.update`. -/
def dictUpdate (d new : List (String × String)) : List (String × String) :=
  new.foldl dictInsert d

/-- The nested scoring loop of `IntentClassifier.classify_intent`: for each
intent (dict order) scan its patterns; each `re.search` hit adds `0.4` to the
intent's score and, for `lead_capture` / `next_step`, merges the extracted
entities; the intent's score is then capped with `min(score, 1.0)`.
`lead_entities` / `time_entities` are the outputs of the regex-based
`extract_lead_entities(text)` / `extract_time_entities(text)` helpers on this
text, passed in as collaborator data.  Returns (scores dict, entities dict). -/
def classifyLoop (search : Search) (text_lower : String)
    (lead_entities time_entities : List (String × String)) :
    List (String × ℚ) × List (String × String) :=
  intent_patterns.foldl
    (fun (acc : List (String × ℚ) × List (String × String)) (p : String × List String) =>
    let r := p.2.foldl (fun (sc : ℚ × List (String × String)) pat =>
      if search pat text_lower then
        (sc.1 + 0.4,
         if p.1 == "lead_capture" then dictUpdate sc.2 lead_entities
         else if p.1 == "next_step" then dictUpdate sc.2 time_entities
         else sc.2)
      else sc) ((0 : ℚ), acc.2)
    (acc.1 ++ [(p.1, min r.1 1.0)], r.2)) ([], [])

/-- The context-boost block of `IntentClassifier.classify_intent`:
`if context and len(context) > 0:` read the previous turn's intent with
`context[-1].get('intent')` and, when it is one of the score dict's keys,
add `0.2` to that intent's score. -/
def context_boost (context : List CtxEntry) (scores0 : List (String × ℚ)) :
    List (String × ℚ) :=
  match context.getLast? with
  | none => scores0
  | some last =>
    match last.intent with
    | none => scores0        -- `None in scores` is false: no boost
    | some last_intent =>
      if scores0.any (fun p => p.1 == last_intent) then
        scores0.map (fun (p : String × ℚ) =>
          if p.1 == last_intent then (p.1, p.2 + 0.2) else p)
      else scores0

/-- Source `IntentClassifier.classify_intent(text, context, request_id)`. -/
def classify_intent (search : Search)
    (lead_entities time_entities : List (String × String))
    (text : String) (context : List CtxEntry) (request_id : String) :
    IntentClassification :=
  let text_lower := pyLower text
  let loop := classifyLoop search text_lower lead_entities time_entities
  let scores0 := loop.1
  let entities := loop.2
  let scores := context_boost context scores0
  -- `best_intent = max(scores, key=scores.get) if scores else 'unknown'`
  let best_intent :=
    match scores with
    | [] => "unknown"
    | first :: rest => (pickMax first rest).1
  -- `confidence = scores.get(best_intent, 0.1)`
  let confidence := ((scores.find? (fun (p : String × ℚ) => p.1 == best_intent)).map Prod.snd).getD 0.1
  if confidence < 0.3 then
    { intent := "smalltalk", entities := entities, confidence := 0.8,
      requestId := request_id }
  else
    { intent := best_intent, entities := entities, confidence := confidence,
      requestId := request_id }

/-- The lead dict read by `DealflowAgent.calculate_quality_score`. -/
structure LeadDataP where
  name : Option String
  company : Option String
  intent : Option String
  budget : Option String
deriving DecidableEq, Repr

/-- Source `DealflowAgent.calculate_quality_score(data)`: "quality score 0-100". -/
def calculate_quality_score (data : LeadDataP) : ℚ :=
  let score : ℚ := 0
  let score := if truthy data.name ∧ data.name ≠ some "Unknown" then score + 25 else score
  let score := if truthy data.company ∧ data.company ≠ some "Unknown Company" then score + 25 else score
  let score := if truthy data.budget then score + 30 else score
  let score := if data.intent ≠ some "General Inquiry" then score + 20 else score
  score

/-- Source `DealflowAgent.guess_domain(company)`. -/
def guess_domain (company : String) : Option String :=
  if company = "" ∨ company = "Unknown Company" then none
  else some (String.mk ((pyLower company).toList.filter pyAlnum) ++ ".com")

/-- The `ScheduleInfo` of the perfect bot. -/
structure ScheduleInfo where
  title : String
  startISO : String
  endISO : Option String
  attendees : List String
deriving DecidableEq, Repr

/-- Source `DealflowAgent.nextstep_parse(text, request_id)`.  `time_match` is
`group(0)` of the time regex when it matched; `name_matches` the result of
`re.findall(r'\bwith\s+([A-Z][a-z]+)', text)`; `tomorrow_date` the
`strftime("%Y-%m-%d")` rendering of `datetime.now() + timedelta(days=1)`. -/
def nextstep_parse (time_match : Option String) (name_matches : List String)
    (tomorrow_date : String) : ScheduleInfo :=
  let start_time := time_match.getD "10:00"
  let start_iso := tomorrow_date ++ "T" ++ start_time ++ ":00"
  let end_iso := tomorrow_date ++ "T" ++ start_time ++ ":00"
  match name_matches with
  | [] =>
    { title := "Business Meeting", startISO := start_iso,
      endISO := some end_iso, attendees := [] }
  | _ =>
    { title := "Meeting with " ++ pyJoin ", " name_matches,
      startISO := start_iso, endISO := some end_iso, attendees := name_matches }

/-- A `Citation` of the perfect bot. -/
structure Citation where
  title : String
  driveFileId : String
  pageRanges : List String
deriving DecidableEq, Repr

/-- A `KnowledgeResponse` of the perfect bot. -/
structure KnowledgeResponse where
  answer : String
  citations : List Citation
  confidence : ℚ
  requestId : String
deriving DecidableEq, Repr

/-- A document returned by the vector store, with the metadata keys
`KnowledgeAgent.ask` reads. -/
structure DocP where
  page_content : String
  filename : Option String
  request_id : Option String
  chunk_id : Option Nat
deriving DecidableEq, Repr

/-- Source `KnowledgeAgent.ask(user_id, text, request_id)`.  `vector_store` is the
truthiness of `self.bot.vector_store`; `similarity` the behaviour of the
`similarity_search(text, k=3)` collaborator call (`.error` = it raised, which
the outer `except` turns into the error response). -/
def ask (vector_store : Bool) (similarity : Except String (List DocP))
    (text request_id : String) : KnowledgeResponse :=
  if vector_store then
    match similarity with
    | .error _ =>
      { answer := "I encountered an error while searching. Please try again.",
        citations := [], confidence := 0.0, requestId := request_id }
    | .ok docs =>
      if docs ≠ [] then
        let context := pyJoin "\n\n" (docs.map (fun d => d.page_content))
        let answer := "Based on the documents: " ++ pySlice context 300 ++ "..."
        let citations := docs.map (fun d =>
          ({ title := d.filename.getD "Unknown",
             driveFileId := d.request_id.getD "",
             pageRanges := ["chunk " ++ toString (d.chunk_id.getD 0)] } : Citation))
        { answer := answer, citations := citations, confidence := 0.85,
          requestId := request_id }
      else
        { answer := "I don\x27t have information about that in my knowledge base. Please upload relevant documents.",
          citations := [], confidence := 0.0, requestId := request_id }
  else
    { answer := "I would search for \x27" ++ text ++ "\x27 in the knowledge base (vector search not available in demo mode)",
      citations := [], confidence := 0.5, requestId := request_id }

end PerfectBot

/-! ## `src/agents/agentB_dealflow/app.py` -/

namespace AgentB

/-- The lead dict fields read by `calculate_lead_quality_score`. -/
structure LeadData where
  name : Option String
  company : Option String
  email : Option String
  phone : Option String
  intent : Option String
  budget : Option String
deriving DecidableEq, Repr

/-- Source `calculate_lead_quality_score(lead_data)`. -/
def calculate_lead_quality_score (lead_data : LeadData) : ℚ :=
  let score : ℚ := 0.0
  -- Name present (20%)
  let score := if truthy lead_data.name then score + 0.2 else score
  -- Company present (25%)
  let score := if truthy lead_data.company then score + 0.25 else score
  -- Contact info (email or phone) (20%)
  let score := if truthy lead_data.email || truthy lead_data.phone then score + 0.2 else score
  -- Intent/need described (20%)
  let score := if truthy lead_data.intent then score + 0.2 else score
  -- Budget mentioned (15%)
  let score := if truthy lead_data.budget then score + 0.15 else score
  min 1.0 score

/-- Source `extract_domain_from_company(company_name)`.  The `re.sub` keeps
`[a-zA-Z0-9\s]`; each `str.replace` removes every occurrence of its pattern;
the function returns `potential_domains[0]`, the `.com` variant, the list
being always nonempty. -/
def extract_domain_from_company (company_name : String) : Option String :=
  if company_name = "" then none
  else
    let company_clean :=
      String.mk ((pyLower company_name).toList.filter (fun c => pyAlnum c || pySpace c))
    let company_clean := pyReplace company_clean " " ""
    let company_clean := pyReplace company_clean "inc" ""
    let company_clean := pyReplace company_clean "llc" ""
    let company_clean := pyReplace company_clean "corp" ""
    some (company_clean ++ ".com")

end AgentB

/-! ## `src/agents/agentA_knowledge/app.py` -/

namespace AgentA

/-- A `Citation` of agent A. -/
structure CitationA where
  title : String
  driveFileId : String
  snippet : String
deriving DecidableEq, Repr

/-- A retrieved document with the metadata keys `answer_node` reads. -/
structure DocA where
  page_content : String
  source : Option String
  drive_file_id : Option String
deriving DecidableEq, Repr

/-- The fields `answer_node` writes into the state. -/
structure AnswerOutcome where
  answer : String
  citations : List CitationA
  confidence : ℚ
deriving DecidableEq, Repr

/-- Source `answer_node(state)`.  `query` is `state.get("query")`, `docs` is
`state.get("retrieved_docs", [])`; `llm` the behaviour of the
`chain.invoke` text-completion call (`.error` = it raised, caught by the
node's `except`). -/
def answer_node (llm : Except String String) (query : Option String)
    (docs : List DocA) : AnswerOutcome :=
  if docs = [] then
    { answer := "I couldn\x27t find relevant information in the knowledge base to answer your question.",
      citations := [], confidence := 0.0 }
  else
    match llm with
    | .error e =>
      { answer := "Error generating answer: " ++ e, citations := [], confidence := 0.0 }
    | .ok content =>
      let citations := docs.map (fun d =>
        ({ title := d.source.getD "Unknown Document",
           driveFileId := d.drive_file_id.getD "",
           snippet := if pyLen d.page_content > 200
             then pySlice d.page_content 200 ++ "..."
             else d.page_content } : CitationA))
      -- confidence = min(1.0, len(docs) * 0.2)
      { answer := content, citations := citations,
        confidence := min 1.0 ((docs.length : ℚ) * 0.2) }

end AgentA

/-! ## `src/ultimate_revenue_copilot.py` -/

namespace Ultimate

/-- The `ScheduleInfo` of the ultimate copilot. -/
structure ScheduleInfoU where
  title : String
  start_iso : String
  end_iso : Option String
  attendees : List String
deriving DecidableEq, Repr

/-- Source `DealflowAgent.parse_scheduling(text, request_id)`.  `time_match` /
`day_match` are the regex match results; both branches of the
`if date_str == "tomorrow"` resolve `start_date` to `now + 1 day`, rendered
here as `now_plus_one_day`. -/
def parse_scheduling (time_match day_match : Option String)
    (name_matches : List String) (now_plus_one_day : String) : ScheduleInfoU :=
  let start_time := time_match.getD "10:00"
  let date_str := day_match.getD "tomorrow"
  let start_date := if date_str = "tomorrow" then now_plus_one_day else now_plus_one_day
  let start_iso := start_date ++ "T" ++ start_time ++ ":00"
  let end_iso := start_date ++ "T" ++ start_time ++ ":00"   -- "Same time for now"
  match name_matches with
  | [] =>
    { title := "Business Meeting", start_iso := start_iso,
      end_iso := some end_iso, attendees := [] }
  | _ =>
    { title := "Meeting with " ++ pyJoin ", " name_matches,
      start_iso := start_iso, end_iso := some end_iso, attendees := name_matches }

end Ultimate

/-! ## Verification-side definitions -/

/-- Well-formedness of a classification result: a labelled intent, a
confidence inside `[0,1]`, an entity list, and a routed agent. -/
def wellFormedResult (r : IntentApp.ClassifierState) : Prop :=
  (∃ i, r.intent = some i ∧ i ∈ IntentApp.intentLabels) ∧
  (∃ c, r.confidence = some c ∧ 0 ≤ c ∧ c ≤ 1) ∧
  (∃ es, r.entities = some es) ∧
  (r.suggested_agent = some "agentA" ∨ r.suggested_agent = some "agentB")

/-! ## Helper lemmas -/

theorem pickMax_mem {α β : Type} [LinearOrder β] (best : α × β) (l : List (α × β)) :
    pickMax best l ∈ best :: l := by
  induction l generalizing best with
  | nil => simp [pickMax]
  | cons p rest ih =>
    have hrw : pickMax best (p :: rest) = pickMax (if best.2 < p.2 then p else best) rest := rfl
    rw [hrw]
    rcases List.mem_cons.mp (ih (if best.2 < p.2 then p else best)) with h1 | h1
    · rw [h1]
      split
      · exact List.mem_cons_of_mem _ (List.mem_cons_self _ _)
      · exact List.mem_cons_self _ _
    · exact List.mem_cons_of_mem _ (List.mem_cons_of_mem _ h1)

theorem pickMax_of_le {α β : Type} [LinearOrder β] (best : α × β) (l : List (α × β))
    (h : ∀ q ∈ l, q.2 ≤ best.2) : pickMax best l = best := by
  induction l generalizing best with
  | nil => rfl
  | cons p rest ih =>
    have hp : ¬ best.2 < p.2 := not_lt.mpr (h p (List.mem_cons_self _ _))
    show pickMax (if best.2 < p.2 then p else best) rest = best
    rw [if_neg hp]
    exact ih best (fun q hq => h q (List.mem_cons_of_mem _ hq))

theorem pickMax_split {α β : Type} [LinearOrder β] (x : α × β) :
    ∀ (l1 : List (α × β)) (best : α × β) (l2 : List (α × β)),
      best.2 < x.2 → (∀ q ∈ l1, q.2 < x.2) → (∀ q ∈ l2, q.2 ≤ x.2) →
      pickMax best (l1 ++ x :: l2) = x := by
  intro l1
  induction l1 with
  | nil =>
    intro best l2 hb _ h2
    show pickMax (if best.2 < x.2 then x else best) l2 = x
    rw [if_pos hb]
    exact pickMax_of_le x l2 h2
  | cons q l1x ih =>
    intro best l2 hb h1 h2
    show pickMax (if best.2 < q.2 then q else best) (l1x ++ x :: l2) = x
    have hq : q.2 < x.2 := h1 q (List.mem_cons_self _ _)
    have hb2 : (if best.2 < q.2 then q else best).2 < x.2 := by
      split
      · exact hq
      · exact hb
    exact ih _ l2 hb2 (fun r hr => h1 r (List.mem_cons_of_mem _ hr)) h2

theorem foldl_max_init_le : ∀ (l : List Nat) (a : Nat), a ≤ l.foldl max a := by
  intro l
  induction l with
  | nil => intro a; exact le_refl a
  | cons x xs ih => intro a; exact le_trans (le_max_left a x) (ih (max a x))

theorem le_foldl_max : ∀ (l : List Nat) (a b : Nat), b ∈ l → b ≤ l.foldl max a := by
  intro l
  induction l with
  | nil => intro a b hb; cases hb
  | cons x xs ih =>
    intro a b hb
    rcases List.mem_cons.mp hb with rfl | hmem
    · exact le_trans (le_max_right a b) (foldl_max_init_le xs (max a b))
    · exact ih (max a x) b hmem

theorem foldl_max_zero : ∀ (l : List Nat), (∀ b ∈ l, b = 0) → l.foldl max 0 = 0 := by
  intro l
  induction l with
  | nil => intro _; rfl
  | cons x xs ih =>
    intro h
    have hx : x = 0 := h x (List.mem_cons_self _ _)
    have hstep : (x :: xs).foldl max 0 = xs.foldl max 0 := by
      subst hx; rfl
    rw [hstep]
    exact ih (fun b hb => h b (List.mem_cons_of_mem _ hb))

theorem IntentApp.value_mem_labels (i : IntentApp.IntentType) :
    i.value ∈ IntentApp.intentLabels := by
  cases i <;> simp [IntentApp.IntentType.value, IntentApp.intentLabels]

/-! ## Claim theorems -/

/-- Claim C4: whenever the retrieval collaborator returns zero results, the
knowledge `ask` operation answers with the canned "no information found"
message, confidence exactly `0.0` and an empty citation list — in both the
agent-A `answer_node` and the perfect bot's `KnowledgeAgent.ask`. -/
theorem C4_zero_retrieval_contract :
    (∀ llm : Except String String, ∀ q : Option String,
      (AgentA.answer_node llm q []).answer
          = "I couldn\x27t find relevant information in the knowledge base to answer your question." ∧
      (AgentA.answer_node llm q []).confidence = 0.0 ∧
      (AgentA.answer_node llm q []).citations = []) ∧
    (∀ text rid : String,
      (PerfectBot.ask true (.ok []) text rid).answer
          = "I don\x27t have information about that in my knowledge base. Please upload relevant documents." ∧
      (PerfectBot.ask true (.ok []) text rid).confidence = 0.0 ∧
      (PerfectBot.ask true (.ok []) text rid).citations = []) :=
  ⟨fun _ _ => ⟨rfl, rfl, rfl⟩, fun _ _ => ⟨rfl, rfl, rfl⟩⟩

/-- Claim C5: `calculate_lead_quality_score` is exactly the sum of the fixed
weights 0.20 (name), 0.25 (company), 0.20 (email-or-phone contact), 0.20
(intent), 0.15 (budget) over present (truthy) fields, the `min` cap never
binds because the weights sum to 1.0, and the score lies in `[0,1]`. -/
theorem C5_lead_quality_weighted_sum (d : AgentB.LeadData) :
    AgentB.calculate_lead_quality_score d =
      (if truthy d.name then (0.2 : ℚ) else 0) +
      (if truthy d.company then (0.25 : ℚ) else 0) +
      (if truthy d.email || truthy d.phone then (0.2 : ℚ) else 0) +
      (if truthy d.intent then (0.2 : ℚ) else 0) +
      (if truthy d.budget then (0.15 : ℚ) else 0) ∧
    0 ≤ AgentB.calculate_lead_quality_score d ∧
    AgentB.calculate_lead_quality_score d ≤ 1 := by
  unfold AgentB.calculate_lead_quality_score
  split_ifs <;> simp [min_def] <;> norm_num

/-- Claim C9: starting from a lead with no present fields (score 0), making
any single one of name / company / email / phone / intent / budget present
strictly increases the quality score, and the score never exceeds 1.0. -/
theorem C9_lead_quality_monotone :
    (∀ v : String, v ≠ "" →
      AgentB.calculate_lead_quality_score ⟨none, none, none, none, none, none⟩
          < AgentB.calculate_lead_quality_score ⟨some v, none, none, none, none, none⟩ ∧
      AgentB.calculate_lead_quality_score ⟨none, none, none, none, none, none⟩
          < AgentB.calculate_lead_quality_score ⟨none, some v, none, none, none, none⟩ ∧
      AgentB.calculate_lead_quality_score ⟨none, none, none, none, none, none⟩
          < AgentB.calculate_lead_quality_score ⟨none, none, some v, none, none, none⟩ ∧
      AgentB.calculate_lead_quality_score ⟨none, none, none, none, none, none⟩
          < AgentB.calculate_lead_quality_score ⟨none, none, none, some v, none, none⟩ ∧
      AgentB.calculate_lead_quality_score ⟨none, none, none, none, none, none⟩
          < AgentB.calculate_lead_quality_score ⟨none, none, none, none, some v, none⟩ ∧
      AgentB.calculate_lead_quality_score ⟨none, none, none, none, none, none⟩
          < AgentB.calculate_lead_quality_score ⟨none, none, none, none, none, some v⟩) ∧
    (∀ d : AgentB.LeadData, AgentB.calculate_lead_quality_score d ≤ 1) := by
  constructor
  · intro v hv
    have hvt : truthy (some v) = true := by simp [truthy, hv]
    refine ⟨?_, ?_, ?_, ?_, ?_, ?_⟩ <;>
      simp [AgentB.calculate_lead_quality_score, truthy, hv, min_def] <;> norm_num
  · intro d
    unfold AgentB.calculate_lead_quality_score
    split_ifs <;> simp [min_def] <;> norm_num

/-- Claim C9 witness: the strict increases at the concrete value `"x"`. -/
theorem C9_lead_quality_monotone_witness :
    ("x" : String) ≠ "" ∧
    (AgentB.calculate_lead_quality_score ⟨none, none, none, none, none, none⟩
        < AgentB.calculate_lead_quality_score ⟨some "x", none, none, none, none, none⟩) :=
  ⟨by decide, ((C9_lead_quality_monotone.1 "x" (by decide)).1)⟩

/-- Claim C6 (code bug): both deterministic schedule parsers build the end
timestamp from the same string as the start timestamp — the end never
defaults to start + 1 hour; in particular on the failing input
"demo tomorrow at 11am" (time regex match `"11am"`, anchored to a concrete
tomorrow) the parsed end equals the parsed start. -/
theorem C6_schedule_end_equals_start :
    (∀ tm : Option String, ∀ nm : List String, ∀ date : String,
      (PerfectBot.nextstep_parse tm nm date).endISO
          = some (PerfectBot.nextstep_parse tm nm date).startISO) ∧
    (∀ tm dm : Option String, ∀ nm : List String, ∀ date : String,
      (Ultimate.parse_scheduling tm dm nm date).end_iso
          = some (Ultimate.parse_scheduling tm dm nm date).start_iso) ∧
    (PerfectBot.nextstep_parse (some "11am") [] "2026-10-13").startISO
        = "2026-10-13T11am:00" ∧
    (PerfectBot.nextstep_parse (some "11am") [] "2026-10-13").endISO
        = some "2026-10-13T11am:00" := by
  refine ⟨?_, ?_, rfl, rfl⟩
  · intro tm nm date
    cases nm <;> rfl
  · intro tm dm nm date
    cases nm <;> rfl

/-- Claim C7 counterexample: the agent-B domain heuristic applied to
"Acme Corp" yields "acme.com", not the claimed "acmecorp.com": the
`str.replace` calls remove every occurrence of "inc"/"llc"/"corp", so the
"corp" inside the squashed "acmecorp" is deleted too. -/
theorem C7_domain_counterexample :
    AgentB.extract_domain_from_company "Acme Corp" = some "acme.com" ∧
    some "acme.com" ≠ some "acmecorp.com" :=
  ⟨rfl, by decide⟩

/-- Claim C7 (amended): `extract_domain_from_company` strips characters
outside `[a-zA-Z0-9\s]` of the lowercased name, removes spaces, removes every
occurrence of the substrings "inc", "llc", "corp" (not merely trailing
legal-entity suffixes), and appends ".com"; it maps "Acme Corp" to
"acme.com", "Corporate Solutions" to "oratesolutions.com" (the leading
"corp" is removed), and the empty string to `None`.  The bot-level
`guess_domain` performs no suffix removal at all: it maps "Acme Corp" to
"acmecorp.com" and the empty string to `None`. -/
theorem C7_domain_amended :
    AgentB.extract_domain_from_company "Acme Corp" = some "acme.com" ∧
    AgentB.extract_domain_from_company "Corporate Solutions" = some "oratesolutions.com" ∧
    AgentB.extract_domain_from_company "" = none ∧
    PerfectBot.guess_domain "Acme Corp" = some "acmecorp.com" ∧
    PerfectBot.guess_domain "" = none :=
  ⟨rfl, rfl, rfl, rfl, by decide⟩

/-- Claim C1: whatever the text, the attachment flag and the failure
behaviour of the text-completion collaborator — raising an exception,
timing out (which raises), or returning content that is not valid JSON —
`classify_intent_node` returns a well-formed result through its `except`
handlers instead of propagating the exception; and when the JSON parse
actually fails (nonempty text reaches the call), the node returns the
pattern scorer's intent with the fixed degraded confidence 0.6. -/
theorem C1_classifier_llm_failure_resilience (search : Search) (text : String)
    (flag : Bool) (msg : String) :
    wellFormedResult
      (IntentApp.classify_intent_node search (.raises msg) (IntentApp.initState text flag)) ∧
    wellFormedResult
      (IntentApp.classify_intent_node search .badJson (IntentApp.initState text flag)) ∧
    (text ≠ "" →
      (IntentApp.classify_intent_node search .badJson (IntentApp.initState text flag)).intent
          = some (IntentApp.quick_intent_check search text flag).value ∧
      (IntentApp.classify_intent_node search .badJson (IntentApp.initState text flag)).confidence
          = some 0.6) := by
  by_cases htext : text = ""
  · subst htext
    refine ⟨?_, ?_, ?_⟩
    · exact ⟨⟨"unknown", rfl, by simp [IntentApp.intentLabels]⟩,
        ⟨0.0, rfl, by norm_num⟩, ⟨[], rfl⟩, Or.inr rfl⟩
    · exact ⟨⟨"unknown", rfl, by simp [IntentApp.intentLabels]⟩,
        ⟨0.0, rfl, by norm_num⟩, ⟨[], rfl⟩, Or.inr rfl⟩
    · intro h; exact absurd rfl h
  · have hnode :
        IntentApp.classify_intent_node search (.raises msg) (IntentApp.initState text flag)
          = { IntentApp.initState text flag with
              intent := some "unknown", confidence := some 0.0,
              entities := some [], suggested_agent := some "agentB",
              error := some msg } := by
      simp [IntentApp.classify_intent_node, IntentApp.classify_try_body,
        IntentApp.initState, htext]
    have hbad :
        IntentApp.classify_intent_node search .badJson (IntentApp.initState text flag)
          = { IntentApp.initState text flag with
              intent := some (IntentApp.quick_intent_check search text flag).value,
              confidence := some 0.6, entities := some [],
              suggested_agent := some (if IntentApp.quick_intent_check search text flag
                  ≠ IntentApp.IntentType.knowledge_qa then "agentB" else "agentA") } := by
      simp [IntentApp.classify_intent_node, IntentApp.classify_try_body,
        IntentApp.initState, htext]
    refine ⟨?_, ?_, ?_⟩
    · rw [hnode]
      exact ⟨⟨"unknown", rfl, by simp [IntentApp.intentLabels]⟩,
        ⟨0.0, rfl, by norm_num⟩, ⟨[], rfl⟩, Or.inr rfl⟩
    · rw [hbad]
      refine ⟨⟨(IntentApp.quick_intent_check search text flag).value, rfl,
          IntentApp.value_mem_labels _⟩,
        ⟨0.6, rfl, by norm_num⟩, ⟨[], rfl⟩, ?_⟩
      by_cases hq : IntentApp.quick_intent_check search text flag
          = IntentApp.IntentType.knowledge_qa
      · exact Or.inl (by simp [hq])
      · exact Or.inr (by simp [hq])
    · intro _
      rw [hbad]
      exact ⟨rfl, rfl⟩

/-- Claim C1 witness: concrete run with text `"hello"`, no attachment, a
collaborator that times out / raises, and one that returns invalid JSON.
The pattern scorer sees no match (`search` is constantly false), so the
parse-failure fallback classifies `unknown` with confidence 0.6. -/
theorem C1_classifier_llm_failure_resilience_witness :
    ("hello" : String) ≠ "" ∧
    wellFormedResult
      (IntentApp.classify_intent_node (fun _ _ => false) (.raises "timeout")
        (IntentApp.initState "hello" false)) ∧
    (IntentApp.classify_intent_node (fun _ _ => false) .badJson
        (IntentApp.initState "hello" false)).intent
      = some (IntentApp.quick_intent_check (fun _ _ => false) "hello" false).value ∧
    (IntentApp.classify_intent_node (fun _ _ => false) .badJson
        (IntentApp.initState "hello" false)).confidence = some 0.6 :=
  ⟨by decide,
   (C1_classifier_llm_failure_resilience (fun _ _ => false) "hello" false "timeout").1,
   (C1_classifier_llm_failure_resilience (fun _ _ => false) "hello" false "timeout").2.2
     (by decide)⟩

/-- Claim C2 counterexample: with the attachment flag set, a well-formed
text-completion response still decides the intent: the node returns the
response's `"smalltalk"`, not `knowledge_qa`, so the attachment rule does
not take priority over the text-completion call. -/
theorem C2_attachment_override_counterexample :
    (IntentApp.initState "Here is our new document" true).has_attachments = true ∧
    (IntentApp.classify_intent_node (fun _ _ => false)
        (.good ⟨some "smalltalk", some 0.9, some []⟩)
        (IntentApp.initState "Here is our new document" true)).intent
      = some "smalltalk" ∧
    ("smalltalk" : String) ≠ "knowledge_qa" :=
  ⟨rfl, rfl, by decide⟩

/-- Claim C2 (amended): the attachment flag forces `knowledge_qa` in the
pattern pre-filter `quick_intent_check` — before any pattern matching — and
therefore also in the JSON-parse-failure fallback of the classify node
(which then reports confidence 0.6 and routes to agentA); but a valid JSON
response from the text-completion call takes priority over the attachment
rule, so the full node can return another intent (see the counterexample). -/
theorem C2_attachment_forces_kq_amended (search : Search) (text : String) :
    IntentApp.quick_intent_check search text true = .knowledge_qa ∧
    (text ≠ "" →
      (IntentApp.classify_intent_node search .badJson (IntentApp.initState text true)).intent
          = some "knowledge_qa" ∧
      (IntentApp.classify_intent_node search .badJson (IntentApp.initState text true)).confidence
          = some 0.6 ∧
      (IntentApp.classify_intent_node search .badJson (IntentApp.initState text true)).suggested_agent
          = some "agentA") := by
  have hq : IntentApp.quick_intent_check search text true = .knowledge_qa := rfl
  refine ⟨hq, ?_⟩
  intro htext
  have hbad :
      IntentApp.classify_intent_node search .badJson (IntentApp.initState text true)
        = { IntentApp.initState text true with
            intent := some (IntentApp.quick_intent_check search text true).value,
            confidence := some 0.6, entities := some [],
            suggested_agent := some (if IntentApp.quick_intent_check search text true
                ≠ IntentApp.IntentType.knowledge_qa then "agentB" else "agentA") } := by
    simp [IntentApp.classify_intent_node, IntentApp.classify_try_body,
      IntentApp.initState, htext]
  rw [hbad, hq]
  exact ⟨rfl, rfl, rfl⟩

/-- Claim C2 witness: concrete attachment-flagged run through the
parse-failure fallback. -/
theorem C2_attachment_forces_kq_amended_witness :
    IntentApp.quick_intent_check (fun _ _ => false) "Here is our new document" true
        = .knowledge_qa ∧
    ("Here is our new document" : String) ≠ "" ∧
    (IntentApp.classify_intent_node (fun _ _ => false) .badJson
        (IntentApp.initState "Here is our new document" true)).intent
      = some "knowledge_qa" ∧
    (IntentApp.classify_intent_node (fun _ _ => false) .badJson
        (IntentApp.initState "Here is our new document" true)).confidence = some 0.6 :=
  ⟨(C2_attachment_forces_kq_amended (fun _ _ => false) "Here is our new document").1,
   by decide,
   ((C2_attachment_forces_kq_amended (fun _ _ => false) "Here is our new document").2
      (by decide)).1,
   ((C2_attachment_forces_kq_amended (fun _ _ => false) "Here is our new document").2
      (by decide)).2.1⟩

theorem foldl_filter_append {α β : Type} (P : α → Prop) [DecidablePred P] (g : α → β) :
    ∀ (l : List α) (acc : List β),
      l.foldl (fun acc2 x => if P x then acc2 ++ [g x] else acc2) acc
        = acc ++ (l.filter (fun x => decide (P x))).map g := by
  intro l
  induction l with
  | nil => intro acc; simp
  | cons x xs ih =>
    intro acc
    by_cases hx : P x
    · rw [List.foldl_cons, if_pos hx, ih]
      simp [List.filter_cons, hx]
    · rw [List.foldl_cons, if_neg hx, ih]
      simp [List.filter_cons, hx]

theorem extract_entities_node_eq (st : List IntentApp.EntityDict) (emails : List String)
    (phones : List (String × String × String)) (moneys : List String) :
    IntentApp.extract_entities_node st emails phones moneys
      = st ++
        ((emails.filter (fun em =>
            decide (¬ st.any (fun e => e.type == "email" && e.value == em)))).map
              (fun em => (⟨"email", em, 0.9⟩ : IntentApp.EntityDict))
          ++ (phones.filter (fun pp =>
            decide (¬ st.any (fun e => e.type == "phone" && pyContains e.value pp.1)))).map
              (fun pp => (⟨"phone", "(" ++ pp.1 ++ ") " ++ pp.2.1 ++ "-" ++ pp.2.2, 0.8⟩ :
                IntentApp.EntityDict))
          ++ (moneys.filter (fun _ =>
            decide (¬ st.any (fun e => e.type == "money")))).map
              (fun money => (⟨"money", money, 0.7⟩ : IntentApp.EntityDict))) := by
  unfold IntentApp.extract_entities_node
  dsimp only
  rw [foldl_filter_append (fun em =>
        ¬ st.any (fun e => e.type == "email" && e.value == em))
      (fun em => (⟨"email", em, 0.9⟩ : IntentApp.EntityDict)) emails []]
  rw [foldl_filter_append (fun pp =>
        ¬ st.any (fun e => e.type == "phone" && pyContains e.value pp.1))
      (fun pp => (⟨"phone", "(" ++ pp.1 ++ ") " ++ pp.2.1 ++ "-" ++ pp.2.2, 0.8⟩ :
        IntentApp.EntityDict)) phones]
  rw [foldl_filter_append (fun _ =>
        ¬ st.any (fun e => e.type == "money"))
      (fun money => (⟨"money", money, 0.7⟩ : IntentApp.EntityDict)) moneys]
  simp [List.append_assoc]

/-- Claim C8 counterexample: (a) when the text-completion response and the
regex extractor both produce the email entity `("email", "a@b.com")` — the
former with confidence 0.1, the latter with 0.9 — the merged list keeps only
the lower-confidence 0.1 entity; (b) a duplicated regex match yields two
identical `(type, value)` entries in the merged list. -/
theorem C8_entity_merge_counterexample :
    IntentApp.extract_entities_node [⟨"email", "a@b.com", 0.1⟩] ["a@b.com"] [] []
        = [⟨"email", "a@b.com", 0.1⟩] ∧
    (0.1 : ℚ) < 0.9 ∧
    IntentApp.extract_entities_node [] ["a@b.com", "a@b.com"] [] []
        = [⟨"email", "a@b.com", 0.9⟩, ⟨"email", "a@b.com", 0.9⟩] :=
  ⟨rfl, by norm_num, rfl⟩

/-- Claim C8 (amended): the merge keeps every text-completion entity
unchanged and appends regex-extracted entities after them; a regex email is
appended exactly when no text-completion entity already carries the same
`(email, value)` pair — on such a collision the text-completion entity is
the one kept regardless of which confidence is higher, and duplicates
arising inside a single source are not suppressed. -/
theorem C8_entity_merge_amended (st : List IntentApp.EntityDict) (emails : List String)
    (phones : List (String × String × String)) (moneys : List String) :
    ∃ add : List IntentApp.EntityDict,
      IntentApp.extract_entities_node st emails phones moneys = st ++ add ∧
      (∀ v ∈ emails, (∃ e ∈ st, e.type = "email" ∧ e.value = v) →
        ∀ e ∈ add, ¬ (e.type = "email" ∧ e.value = v)) ∧
      (∀ v ∈ emails, (∀ e ∈ st, ¬ (e.type = "email" ∧ e.value = v)) →
        (⟨"email", v, 0.9⟩ : IntentApp.EntityDict) ∈ add) := by
  refine ⟨_, extract_entities_node_eq st emails phones moneys, ?_, ?_⟩
  · rintro v _ ⟨e0, he0mem, he0t, he0v⟩ e he hev
    rcases List.mem_append.mp he with he1 | he3
    · rcases List.mem_append.mp he1 with he1 | he2
      · rcases List.mem_map.mp he1 with ⟨em, hem, rfl⟩
        have hval : em = v := hev.2
        subst hval
        have hf := (List.mem_filter.mp hem).2
        rw [decide_eq_true_eq] at hf
        exact hf (List.any_eq_true.mpr
          ⟨e0, he0mem, by simp [he0t, he0v]⟩)
      · rcases List.mem_map.mp he2 with ⟨pp, _, rfl⟩
        have hne : ("phone" : String) ≠ "email" := by decide
        exact hne hev.1
    · rcases List.mem_map.mp he3 with ⟨m, _, rfl⟩
      have hne : ("money" : String) ≠ "email" := by decide
      exact hne hev.1
  · intro v hv hnone
    apply List.mem_append.mpr
    left
    apply List.mem_append.mpr
    left
    apply List.mem_map.mpr
    refine ⟨v, List.mem_filter.mpr ⟨hv, ?_⟩, rfl⟩
    rw [decide_eq_true_eq]
    intro hany
    rcases List.any_eq_true.mp hany with ⟨e, hemem, hecond⟩
    simp only [Bool.and_eq_true, beq_iff_eq] at hecond
    exact hnone e hemem hecond

/-- Claim C8 witness: the amended merge property at the concrete input
where the text-completion output already holds `("email", "a@b.com")` and
the regex extractor finds both `"a@b.com"` and the fresh `"c@d.com"`. -/
theorem C8_entity_merge_amended_witness :
    ∃ add : List IntentApp.EntityDict,
      IntentApp.extract_entities_node [⟨"email", "a@b.com", 0.5⟩]
          ["a@b.com", "c@d.com"] [] []
        = [⟨"email", "a@b.com", 0.5⟩] ++ add ∧
      (∀ v ∈ ["a@b.com", "c@d.com"],
        (∃ e ∈ [(⟨"email", "a@b.com", 0.5⟩ : IntentApp.EntityDict)],
            e.type = "email" ∧ e.value = v) →
        ∀ e ∈ add, ¬ (e.type = "email" ∧ e.value = v)) ∧
      (∀ v ∈ ["a@b.com", "c@d.com"],
        (∀ e ∈ [(⟨"email", "a@b.com", 0.5⟩ : IntentApp.EntityDict)],
            ¬ (e.type = "email" ∧ e.value = v)) →
        (⟨"email", v, 0.9⟩ : IntentApp.EntityDict) ∈ add) :=
  C8_entity_merge_amended [⟨"email", "a@b.com", 0.5⟩] ["a@b.com", "c@d.com"] [] []

theorem pickMax_six {α : Type} (d : α × Nat) (a0 a1 a2 a3 a4 a5 : α)
    (c0 c1 c2 c3 c4 c5 : Nat) (k : Nat) (hk : k < 6)
    (hmax : ∀ j, j < 6 →
      (([(a0, c0), (a1, c1), (a2, c2), (a3, c3), (a4, c4), (a5, c5)]).getD j d).2
        ≤ (([(a0, c0), (a1, c1), (a2, c2), (a3, c3), (a4, c4), (a5, c5)]).getD k d).2)
    (hfirst : ∀ j, j < k →
      (([(a0, c0), (a1, c1), (a2, c2), (a3, c3), (a4, c4), (a5, c5)]).getD j d).2
        < (([(a0, c0), (a1, c1), (a2, c2), (a3, c3), (a4, c4), (a5, c5)]).getD k d).2) :
    pickMax (a0, c0) [(a1, c1), (a2, c2), (a3, c3), (a4, c4), (a5, c5)]
      = ([(a0, c0), (a1, c1), (a2, c2), (a3, c3), (a4, c4), (a5, c5)]).getD k d := by
  interval_cases k
  · have m1 : c1 ≤ c0 := by simpa [List.getD] using hmax 1 (by norm_num)
    have m2 : c2 ≤ c0 := by simpa [List.getD] using hmax 2 (by norm_num)
    have m3 : c3 ≤ c0 := by simpa [List.getD] using hmax 3 (by norm_num)
    have m4 : c4 ≤ c0 := by simpa [List.getD] using hmax 4 (by norm_num)
    have m5 : c5 ≤ c0 := by simpa [List.getD] using hmax 5 (by norm_num)
    show pickMax (a0, c0) [(a1, c1), (a2, c2), (a3, c3), (a4, c4), (a5, c5)] = (a0, c0)
    apply pickMax_of_le
    intro q hq
    simp only [List.mem_cons, List.not_mem_nil, or_false] at hq
    rcases hq with rfl | rfl | rfl | rfl | rfl
    · exact m1
    · exact m2
    · exact m3
    · exact m4
    · exact m5
  · have hb : c0 < c1 := by simpa [List.getD] using hfirst 0 (by norm_num)
    have m2 : c2 ≤ c1 := by simpa [List.getD] using hmax 2 (by norm_num)
    have m3 : c3 ≤ c1 := by simpa [List.getD] using hmax 3 (by norm_num)
    have m4 : c4 ≤ c1 := by simpa [List.getD] using hmax 4 (by norm_num)
    have m5 : c5 ≤ c1 := by simpa [List.getD] using hmax 5 (by norm_num)
    have h := pickMax_split (a1, c1) [] (a0, c0) [(a2, c2), (a3, c3), (a4, c4), (a5, c5)]
      hb (by intro q hq; cases hq) ?_
    · exact h
    · intro q hq
      simp only [List.mem_cons, List.not_mem_nil, or_false] at hq
      rcases hq with rfl | rfl | rfl | rfl
      · exact m2
      · exact m3
      · exact m4
      · exact m5
  · have hb : c0 < c2 := by simpa [List.getD] using hfirst 0 (by norm_num)
    have f1 : c1 < c2 := by simpa [List.getD] using hfirst 1 (by norm_num)
    have m3 : c3 ≤ c2 := by simpa [List.getD] using hmax 3 (by norm_num)
    have m4 : c4 ≤ c2 := by simpa [List.getD] using hmax 4 (by norm_num)
    have m5 : c5 ≤ c2 := by simpa [List.getD] using hmax 5 (by norm_num)
    have h := pickMax_split (a2, c2) [(a1, c1)] (a0, c0) [(a3, c3), (a4, c4), (a5, c5)]
      hb ?_ ?_
    · exact h
    · intro q hq
      simp only [List.mem_cons, List.not_mem_nil, or_false] at hq
      rcases hq with rfl
      exact f1
    · intro q hq
      simp only [List.mem_cons, List.not_mem_nil, or_false] at hq
      rcases hq with rfl | rfl | rfl
      · exact m3
      · exact m4
      · exact m5
  · have hb : c0 < c3 := by simpa [List.getD] using hfirst 0 (by norm_num)
    have f1 : c1 < c3 := by simpa [List.getD] using hfirst 1 (by norm_num)
    have f2 : c2 < c3 := by simpa [List.getD] using hfirst 2 (by norm_num)
    have m4 : c4 ≤ c3 := by simpa [List.getD] using hmax 4 (by norm_num)
    have m5 : c5 ≤ c3 := by simpa [List.getD] using hmax 5 (by norm_num)
    have h := pickMax_split (a3, c3) [(a1, c1), (a2, c2)] (a0, c0) [(a4, c4), (a5, c5)]
      hb ?_ ?_
    · exact h
    · intro q hq
      simp only [List.mem_cons, List.not_mem_nil, or_false] at hq
      rcases hq with rfl | rfl
      · exact f1
      · exact f2
    · intro q hq
      simp only [List.mem_cons, List.not_mem_nil, or_false] at hq
      rcases hq with rfl | rfl
      · exact m4
      · exact m5
  · have hb : c0 < c4 := by simpa [List.getD] using hfirst 0 (by norm_num)
    have f1 : c1 < c4 := by simpa [List.getD] using hfirst 1 (by norm_num)
    have f2 : c2 < c4 := by simpa [List.getD] using hfirst 2 (by norm_num)
    have f3 : c3 < c4 := by simpa [List.getD] using hfirst 3 (by norm_num)
    have m5 : c5 ≤ c4 := by simpa [List.getD] using hmax 5 (by norm_num)
    have h := pickMax_split (a4, c4) [(a1, c1), (a2, c2), (a3, c3)] (a0, c0) [(a5, c5)]
      hb ?_ ?_
    · exact h
    · intro q hq
      simp only [List.mem_cons, List.not_mem_nil, or_false] at hq
      rcases hq with rfl | rfl | rfl
      · exact f1
      · exact f2
      · exact f3
    · intro q hq
      simp only [List.mem_cons, List.not_mem_nil, or_false] at hq
      rcases hq with rfl
      exact m5
  · have hb : c0 < c5 := by simpa [List.getD] using hfirst 0 (by norm_num)
    have f1 : c1 < c5 := by simpa [List.getD] using hfirst 1 (by norm_num)
    have f2 : c2 < c5 := by simpa [List.getD] using hfirst 2 (by norm_num)
    have f3 : c3 < c5 := by simpa [List.getD] using hfirst 3 (by norm_num)
    have f4 : c4 < c5 := by simpa [List.getD] using hfirst 4 (by norm_num)
    have h := pickMax_split (a5, c5) [(a1, c1), (a2, c2), (a3, c3), (a4, c4)] (a0, c0) []
      hb ?_ ?_
    · exact h
    · intro q hq
      simp only [List.mem_cons, List.not_mem_nil, or_false] at hq
      rcases hq with rfl | rfl | rfl | rfl
      · exact f1
      · exact f2
      · exact f3
      · exact f4
    · intro q hq
      cases hq

/-- Claim C10: `quick_intent_check` on a non-attachment message is the
deterministic argmax-with-first-wins over the per-intent pattern-match
counts in the declared table order (`knowledge_qa`, `lead_capture`,
`proposal_request`, `next_step`, `status_update`, `smalltalk`): when every
count is zero it returns `unknown`, and the `k`-th declared intent is
returned whenever its count is positive, maximal, and strictly above every
earlier-declared intent's count — which at a tie for the maximum selects
the tied intent declared earliest. -/
theorem C10_quick_intent_tie_break (search : Search) (text : String) :
    ((∀ p ∈ IntentApp.intentScores search (pyLower text), p.2 = 0) →
      IntentApp.quick_intent_check search text false = .unknown) ∧
    (∀ k : Nat, k < 6 →
      0 < ((IntentApp.intentScores search (pyLower text)).getD k
            (IntentApp.IntentType.unknown, 0)).2 →
      (∀ j : Nat, j < 6 →
        ((IntentApp.intentScores search (pyLower text)).getD j
            (IntentApp.IntentType.unknown, 0)).2
          ≤ ((IntentApp.intentScores search (pyLower text)).getD k
            (IntentApp.IntentType.unknown, 0)).2) →
      (∀ j : Nat, j < k →
        ((IntentApp.intentScores search (pyLower text)).getD j
            (IntentApp.IntentType.unknown, 0)).2
          < ((IntentApp.intentScores search (pyLower text)).getD k
            (IntentApp.IntentType.unknown, 0)).2) →
      IntentApp.quick_intent_check search text false
        = ((IntentApp.intentScores search (pyLower text)).getD k
            (IntentApp.IntentType.unknown, 0)).1) := by
  obtain ⟨c0, c1, c2, c3, c4, c5, hS⟩ :
      ∃ c0 c1 c2 c3 c4 c5 : Nat,
        IntentApp.intentScores search (pyLower text)
          = [(.knowledge_qa, c0), (.lead_capture, c1), (.proposal_request, c2),
             (.next_step, c3), (.status_update, c4), (.smalltalk, c5)] :=
    ⟨_, _, _, _, _, _, rfl⟩
  have hq : IntentApp.quick_intent_check search text false
      = (if ((IntentApp.intentScores search (pyLower text)).map Prod.snd).foldl max 0 = 0
          then IntentApp.IntentType.unknown
          else
            match IntentApp.intentScores search (pyLower text) with
            | [] => IntentApp.IntentType.unknown
            | first :: rest => (pickMax first rest).1) := rfl
  rw [hS] at hq
  constructor
  · intro h0
    rw [hS] at h0
    have hz0 : c0 = 0 := h0 (.knowledge_qa, c0) (by simp)
    have hz1 : c1 = 0 := h0 (.lead_capture, c1) (by simp)
    have hz2 : c2 = 0 := h0 (.proposal_request, c2) (by simp)
    have hz3 : c3 = 0 := h0 (.next_step, c3) (by simp)
    have hz4 : c4 = 0 := h0 (.status_update, c4) (by simp)
    have hz5 : c5 = 0 := h0 (.smalltalk, c5) (by simp)
    subst hz0 hz1 hz2 hz3 hz4 hz5
    rw [hq]
    decide
  · intro k hk hpos hmax hfirst
    rw [hS] at hpos hmax hfirst
    rw [hq, hS]
    have hmem :
        (([(IntentApp.IntentType.knowledge_qa, c0), (.lead_capture, c1),
            (.proposal_request, c2), (.next_step, c3), (.status_update, c4),
            (.smalltalk, c5)]).getD k (IntentApp.IntentType.unknown, 0)).2
          ∈ ([(IntentApp.IntentType.knowledge_qa, c0), (.lead_capture, c1),
            (.proposal_request, c2), (.next_step, c3), (.status_update, c4),
            (.smalltalk, c5)]).map Prod.snd := by
      interval_cases k <;> simp [List.getD]
    have hle := le_foldl_max _ 0 _ hmem
    have hne :
        ¬ (([(IntentApp.IntentType.knowledge_qa, c0), (.lead_capture, c1),
            (.proposal_request, c2), (.next_step, c3), (.status_update, c4),
            (.smalltalk, c5)]).map Prod.snd).foldl max 0 = 0 := by omega
    rw [if_neg hne]
    have h6 := pickMax_six (IntentApp.IntentType.unknown, 0)
      IntentApp.IntentType.knowledge_qa .lead_capture .proposal_request
      .next_step .status_update .smalltalk c0 c1 c2 c3 c4 c5 k hk hmax hfirst
    show (pickMax (IntentApp.IntentType.knowledge_qa, c0)
        [(.lead_capture, c1), (.proposal_request, c2), (.next_step, c3),
         (.status_update, c4), (.smalltalk, c5)]).1 = _
    rw [h6]

/-- Claim C10 witness: on the text `"nice policy"` with a search oracle
recording the regex outcomes on it — exactly `\bpolicy\b` (knowledge_qa) and
`\b(?:nice|great|awesome|cool)\b` (smalltalk) match, a 1-1 tie — the
pre-filter returns the earliest-declared tied intent, `knowledge_qa`. -/
theorem C10_quick_intent_tie_break_witness :
    0 < ((IntentApp.intentScores
          (fun pat _ => decide (pat ∈ ["\\bpolicy\\b",
            "\\b(?:nice|great|awesome|cool)\\b"])) (pyLower "nice policy")).getD 0
          (IntentApp.IntentType.unknown, 0)).2 ∧
    ((IntentApp.intentScores
          (fun pat _ => decide (pat ∈ ["\\bpolicy\\b",
            "\\b(?:nice|great|awesome|cool)\\b"])) (pyLower "nice policy")).getD 5
          (IntentApp.IntentType.unknown, 0)).2
      = ((IntentApp.intentScores
          (fun pat _ => decide (pat ∈ ["\\bpolicy\\b",
            "\\b(?:nice|great|awesome|cool)\\b"])) (pyLower "nice policy")).getD 0
          (IntentApp.IntentType.unknown, 0)).2 ∧
    IntentApp.quick_intent_check
        (fun pat _ => decide (pat ∈ ["\\bpolicy\\b",
          "\\b(?:nice|great|awesome|cool)\\b"])) "nice policy" false
      = .knowledge_qa := by
  refine ⟨by decide, by decide, ?_⟩
  have h := (C10_quick_intent_tie_break
    (fun pat _ => decide (pat ∈ ["\\bpolicy\\b",
      "\\b(?:nice|great|awesome|cool)\\b"])) "nice policy").2
    0 (by norm_num) (by decide) (by decide) (by decide)
  exact h

theorem classifyLoop_inner_fst (search : Search) (tl : String)
    (le te : List (String × String)) (p1 : String) :
    ∀ (pats : List String) (a : ℚ) (b : List (String × String)),
      (pats.foldl (fun (sc : ℚ × List (String × String)) pat =>
          if search pat tl then
            (sc.1 + 0.4,
             if p1 == "lead_capture" then PerfectBot.dictUpdate sc.2 le
             else if p1 == "next_step" then PerfectBot.dictUpdate sc.2 te
             else sc.2)
          else sc) (a, b)).1
        = a + (pats.countP (fun pat => search pat tl) : ℚ) * 0.4 := by
  intro pats
  induction pats with
  | nil => intro a b; simp
  | cons x xs ih =>
    intro a b
    by_cases hx : search x tl
    · rw [List.foldl_cons, if_pos hx, ih, List.countP_cons]
      simp only [hx, if_pos]
      push_cast
      ring
    · rw [List.foldl_cons, if_neg hx, ih, List.countP_cons]
      simp [hx]

theorem classifyLoop_scores (search : Search) (tl : String)
    (le te : List (String × String)) :
    ∀ (pats : List (String × List String))
      (acc : List (String × ℚ) × List (String × String)),
      (pats.foldl
        (fun (acc : List (String × ℚ) × List (String × String))
            (p : String × List String) =>
          let r := p.2.foldl (fun (sc : ℚ × List (String × String)) pat =>
            if search pat tl then
              (sc.1 + 0.4,
               if p.1 == "lead_capture" then PerfectBot.dictUpdate sc.2 le
               else if p.1 == "next_step" then PerfectBot.dictUpdate sc.2 te
               else sc.2)
            else sc) ((0 : ℚ), acc.2)
          (acc.1 ++ [(p.1, min r.1 1.0)], r.2)) acc).1
      = acc.1 ++ pats.map (fun p =>
          (p.1, min ((p.2.countP (fun pat => search pat tl) : ℚ) * 0.4) 1.0)) := by
  intro pats
  induction pats with
  | nil => intro acc; simp
  | cons p ps ih =>
    intro acc
    rw [List.foldl_cons, ih]
    dsimp only
    rw [classifyLoop_inner_fst search tl le te p.1 p.2 0 acc.2]
    simp [List.append_assoc]

theorem classifyLoop_fst_eq (search : Search) (tl : String)
    (le te : List (String × String)) :
    (PerfectBot.classifyLoop search tl le te).1
      = PerfectBot.intent_patterns.map (fun p =>
          (p.1, min ((p.2.countP (fun pat => search pat tl) : ℚ) * 0.4) 1.0)) := by
  unfold PerfectBot.classifyLoop
  simpa using classifyLoop_scores search tl le te PerfectBot.intent_patterns ([], [])

theorem context_boost_mem (context : List PerfectBot.CtxEntry)
    (scores0 : List (String × ℚ)) (q : String × ℚ)
    (hq : q ∈ PerfectBot.context_boost context scores0) :
    q ∈ scores0 ∨ ∃ p ∈ scores0, q = (p.1, p.2 + 0.2) := by
  unfold PerfectBot.context_boost at hq
  revert hq
  cases context.getLast? with
  | none => intro hq; exact Or.inl hq
  | some last =>
    obtain ⟨oi⟩ := last
    cases oi with
    | none => intro hq; exact Or.inl hq
    | some li =>
      intro hq
      have hq2 : q ∈ (if scores0.any (fun p => p.1 == li) then
          scores0.map (fun (p : String × ℚ) => if p.1 == li then (p.1, p.2 + 0.2) else p)
        else scores0) := hq
      by_cases hany : scores0.any (fun p => p.1 == li)
      · rw [if_pos hany] at hq2
        rcases List.mem_map.mp hq2 with ⟨p, hp, rfl⟩
        by_cases hpl : p.1 == li
        · exact Or.inr ⟨p, hp, by simp [hpl]⟩
        · exact Or.inl (by simpa [hpl] using hp)
      · rw [if_neg hany] at hq2
        exact Or.inl hq2

theorem context_boost_keys (context : List PerfectBot.CtxEntry)
    (scores0 : List (String × ℚ)) :
    (PerfectBot.context_boost context scores0).map Prod.fst
      = scores0.map Prod.fst := by
  unfold PerfectBot.context_boost
  cases context.getLast? with
  | none => rfl
  | some last =>
    obtain ⟨oi⟩ := last
    cases oi with
    | none => rfl
    | some li =>
      show (if scores0.any (fun p => p.1 == li) then
          scores0.map (fun (p : String × ℚ) => if p.1 == li then (p.1, p.2 + 0.2) else p)
        else scores0).map Prod.fst = scores0.map Prod.fst
      by_cases hany : scores0.any (fun p => p.1 == li)
      · rw [if_pos hany, List.map_map]
        apply List.map_congr_left
        intro p _
        by_cases hpl : p.1 = li <;> simp [hpl]
      · rw [if_neg hany]

theorem six_labels_sub (s : String)
    (hs : s ∈ ["knowledge_qa", "lead_capture", "proposal_request", "next_step",
      "status_update", "smalltalk"]) : s ∈ IntentApp.intentLabels := by
  simp only [List.mem_cons, List.not_mem_nil, or_false] at hs
  rcases hs with rfl | rfl | rfl | rfl | rfl | rfl <;> simp [IntentApp.intentLabels]

set_option maxRecDepth 8192 in
/-- Claim C3 counterexample: on the text
`"John from Acme wants a demo budget pricing 5000"` all three
`lead_capture` patterns of the perfect bot's table match its lowercasing —
`\b(\w+)\s+from\s+(\w+)\s+(wants|needs|interested)\b` on
"john from acme wants", `\b(budget|pricing)\b.*\$?\d+` on
"budget … 5000", `\b(poc|demo|proposal)\b` on "demo" — and no pattern of
any other intent matches; the search oracle below records exactly these
regex outcomes.  The base score min(3·0.4, 1.0) = 1.0 plus the +0.2 boost
from a previous `lead_capture` turn yields a returned confidence of 1.2,
outside `[0,1]`. -/
theorem C3_confidence_above_one_counterexample :
    (PerfectBot.classify_intent
        (fun pat _ => decide (pat ∈
          ["\\b(\\w+)\\s+from\\s+(\\w+)\\s+(wants|needs|interested)\\b",
           "\\b(budget|pricing)\\b.*\\$?\\d+",
           "\\b(poc|demo|proposal)\\b"]))
        [] [] "John from Acme wants a demo budget pricing 5000"
        [⟨some "lead_capture"⟩] "r1").confidence = 1.2 ∧
    ¬ ((1.2 : ℚ) ≤ 1) :=
  ⟨by with_unfolding_all decide, by norm_num⟩

/-- Claim C3 (amended): the perfect bot's `classify_intent` always returns
an intent among the seven fixed labels and a confidence in `[0, 1.2]`: each
intent's pattern score is capped at 1.0 *before* the +0.2 context boost, so
a boosted intent can reach 1.2 (see the counterexample); with no prior
context the confidence stays within `[0,1]`. -/
theorem C3_classify_confidence_amended (search : Search)
    (le te : List (String × String)) (text : String)
    (context : List PerfectBot.CtxEntry) (rid : String) :
    (PerfectBot.classify_intent search le te text context rid).intent
        ∈ IntentApp.intentLabels ∧
    0 ≤ (PerfectBot.classify_intent search le te text context rid).confidence ∧
    (PerfectBot.classify_intent search le te text context rid).confidence ≤ 1.2 ∧
    (context = [] →
      (PerfectBot.classify_intent search le te text context rid).confidence ≤ 1) := by
  unfold PerfectBot.classify_intent
  dsimp only
  set S0 := (PerfectBot.classifyLoop search (pyLower text) le te).1 with hS0def
  have hS0 := classifyLoop_fst_eq search (pyLower text) le te
  rw [← hS0def] at hS0
  have hS0bnd : ∀ q ∈ S0, 0 ≤ q.2 ∧ q.2 ≤ 1 := by
    rw [hS0]
    intro q hq
    rcases List.mem_map.mp hq with ⟨p, hp, rfl⟩
    refine ⟨le_min (by positivity) (by norm_num), ?_⟩
    calc min ((p.2.countP (fun pat => search pat (pyLower text)) : ℚ) * 0.4) 1.0
        ≤ 1.0 := min_le_right _ _
      _ ≤ 1 := by norm_num
  have hS0keys : S0.map Prod.fst
      = ["knowledge_qa", "lead_capture", "proposal_request", "next_step",
         "status_update", "smalltalk"] := by
    rw [hS0, List.map_map]
    rfl
  have hBbnd : ∀ q ∈ PerfectBot.context_boost context S0, 0 ≤ q.2 ∧ q.2 ≤ 1.2 := by
    intro q hq
    rcases context_boost_mem context S0 q hq with hmem | ⟨p, hp, rfl⟩
    · rcases hS0bnd q hmem with ⟨h1, h2⟩
      refine ⟨h1, ?_⟩
      calc q.2 ≤ 1 := h2
        _ ≤ 1.2 := by norm_num
    · rcases hS0bnd p hp with ⟨h1, h2⟩
      constructor
      · have : (0 : ℚ) ≤ 0.2 := by norm_num
        dsimp only
        linarith
      · dsimp only
        calc p.2 + 0.2 ≤ 1 + 0.2 := by linarith
          _ = 1.2 := by norm_num
  have hBone : context = [] → ∀ q ∈ PerfectBot.context_boost context S0, q.2 ≤ 1 := by
    intro hctx q hq
    subst hctx
    exact (hS0bnd q hq).2
  have hBkeys := context_boost_keys context S0
  rcases hB : PerfectBot.context_boost context S0 with _ | ⟨first, rest⟩
  · -- boosted score dict empty: falls to `'unknown'` and the 0.1 default,
    -- then below the 0.3 threshold, hence smalltalk with 0.8
    rw [hB] at hBbnd hBone hBkeys
    rw [List.find?_nil]
    simp only [Option.map_none', Option.getD_none]
    rw [if_pos (by norm_num : (0.1 : ℚ) < 0.3)]
    refine ⟨by simp [IntentApp.intentLabels], by norm_num, by norm_num, ?_⟩
    intro _
    norm_num
  · rw [hB] at hBbnd hBone hBkeys
    have hpmem : pickMax first rest ∈ first :: rest := pickMax_mem first rest
    have hbest : (pickMax first rest).1
        ∈ ["knowledge_qa", "lead_capture", "proposal_request", "next_step",
           "status_update", "smalltalk"] := by
      rw [← hS0keys, ← hBkeys]
      exact List.mem_map_of_mem Prod.fst hpmem
    rcases hf : List.find? (fun p => p.1 == (pickMax first rest).1) (first :: rest)
        with _ | w
    · rw [hf]
      simp only [Option.map_none', Option.getD_none]
      rw [if_pos (by norm_num : (0.1 : ℚ) < 0.3)]
      refine ⟨by simp [IntentApp.intentLabels], by norm_num, by norm_num, ?_⟩
      intro _
      norm_num
    · rw [hf]
      simp only [Option.map_some', Option.getD_some]
      have hw := List.mem_of_find?_eq_some hf
      rcases hBbnd w hw with ⟨hw0, hw12⟩
      by_cases hc : w.2 < 0.3
      · rw [if_pos hc]
        refine ⟨by simp [IntentApp.intentLabels], by norm_num, by norm_num, ?_⟩
        intro _
        norm_num
      · rw [if_neg hc]
        refine ⟨six_labels_sub _ hbest, hw0, hw12, ?_⟩
        intro hctx
        exact hBone hctx w hw

/-- Claim C3 witness: with no prior context and a search oracle matching
nothing, every base score is 0, the argmax confidence 0 falls below the 0.3
threshold, and the classifier returns `smalltalk` with confidence 0.8 —
inside `[0,1]`. -/
theorem C3_classify_confidence_amended_witness :
    (PerfectBot.classify_intent (fun _ _ => false) [] [] "I like pizza" [] "r2").intent
        ∈ IntentApp.intentLabels ∧
    0 ≤ (PerfectBot.classify_intent (fun _ _ => false) [] [] "I like pizza" [] "r2").confidence ∧
    (PerfectBot.classify_intent (fun _ _ => false) [] [] "I like pizza" [] "r2").confidence ≤ 1 :=
  ⟨(C3_classify_confidence_amended (fun _ _ => false) [] [] "I like pizza" [] "r2").1,
   (C3_classify_confidence_amended (fun _ _ => false) [] [] "I like pizza" [] "r2").2.1,
   (C3_classify_confidence_amended (fun _ _ => false) [] [] "I like pizza" [] "r2").2.2.2 rfl⟩

end Renvuee
